import Mathlib

/-!
Shallow embedding of the Aero-Visit wind-tunnel engine (src/app.js).

JavaScript numbers are modelled as exact rationals (ℚ).  The impure
ingredients of the code are supplied through an explicit environment:
`Math.sin` / `Math.PI` / `Math.sqrt` / `performance.now()` become abstract
functions and constants, and every `Math.random()` call site receives its
own named supply value (assumed to lie in `[0,1)` where a theorem needs it).
Rendering-only code (canvas drawing, gradients, colors used only by `draw`)
carries no simulation state and is omitted, as are the rendering-only
constructor fields `size`, `opacity` and `streakFactor`.

The file embeds both engine variants present in `src/app.js`:
the `Particle`/`PaperAirplane`/`WindTunnel` classes of the first part and
the `Streamline` class of the second part.
-/

/-- The `airplaneType` strings: the three recognised values plus `other`,
standing for any string outside `{dart, glider, tumbler}` (all such strings
take exactly the same branches). -/
inductive AirType where
  | dart
  | glider
  | tumbler
  | other
deriving DecidableEq, Repr

/-- `launchPhase` field values of `PaperAirplane` (only these two strings occur). -/
inductive Phase where
  | fly
  | bounce
deriving DecidableEq, Repr

/-- Random draws consumed by one `Particle.update` call, one field per
`Math.random()` call site (lines 63/103, 127, 128, 120, 121 of src/app.js). -/
structure PRands where
  color : ℚ
  resetX : ℚ
  resetY : ℚ
  loY : ℚ
  hiY : ℚ
deriving Repr

/-- Random draws consumed by one `Streamline.update` call
(lines 1121 and 1139 of src/app.js). -/
structure SRands where
  jitter : ℚ
  recycle : ℚ
deriving Repr, DecidableEq

/-- Random draws consumed when `_fillParticles` constructs one fresh
`Particle` (position/speed draws at lines 716-718 and the constructor
draws at lines 25-39; rendering-only draws are dropped). -/
structure FillRands where
  posX : ℚ
  posY : ℚ
  spd : ℚ
  colR : ℚ
  colG : ℚ
  phase : ℚ
  amp : ℚ
deriving Repr

/-- The ambient impure environment: abstract `Math.sin`, `Math.PI`,
`Math.sqrt`, `performance.now()`, and indexed random supplies for the
frame loop. -/
structure Env where
  sin : ℚ → ℚ
  pi : ℚ
  sqrt : ℚ → ℚ
  now : ℚ
  shakeRand1 : ℚ
  shakeRand2 : ℚ
  prands : ℕ → PRands
  fillRands : ℕ → FillRands

/-- A fully trivial environment, used to instantiate theorems at
concrete inputs. -/
def env0 : Env where
  sin := fun _ => 0
  pi := 0
  sqrt := fun _ => 0
  now := 0
  shakeRand1 := 0
  shakeRand2 := 0
  prands := fun _ => ⟨0, 0, 0, 0, 0⟩
  fillRands := fun _ => ⟨0, 0, 0, 0, 0, 0, 0⟩

/-- Positional bounding info handed to particles (`PaperAirplane.pos`,
lines 245-252). -/
structure Pos where
  x : ℚ
  y : ℚ
  width : ℚ
  height : ℚ
deriving Repr

/-- Simulation state of one `Particle` (class at lines 13-163; the
rendering-only fields `size`, `opacity`, `streakFactor` are omitted). -/
structure Particle where
  x : ℚ
  y : ℚ
  originY : ℚ
  baseSpeed : ℚ
  jitterPhase : ℚ
  jitterAmp : ℚ
  r : ℤ
  g : ℤ
  b : ℤ
deriving Repr, DecidableEq

namespace Particle

/-- `Particle.reset` (lines 125-130): back to the left edge at a random height. -/
def reset (rnd : PRands) (ch : ℚ) (p : Particle) : Particle :=
  let ny := 35 + rnd.resetY * (ch - 70)
  { p with x := -(rnd.resetX * 40), y := ny, originY := ny }

/-- The type-branching movement part of `Particle.update` (lines 50-112).
`pp` is the plane's `pos` descriptor, `speed`/`jitter` as in the source. -/
def move (env : Env) (rnd : PRands) (windSpeed : ℚ) (ty : AirType)
    (pp : Pos) (p : Particle) : Particle :=
  let speed := p.baseSpeed * (windSpeed / 5)
  let time := env.now / 1000
  let jitter := env.sin (time * 2 + p.jitterPhase) * p.jitterAmp
  match ty with
  | AirType.dart =>
      { p with x := p.x + speed, y := p.y + jitter * 0.3,
               r := 180 + ⌊rnd.color * 10⌋, g := 215, b := 255 }
  | AirType.glider =>
      let dx := p.x - pp.x
      let dy := p.y - pp.y
      let nearWing := |dx| < pp.width * 0.7 ∧ |dy| < pp.height * 1.2
      if nearWing ∧ dy > 0 then
        { p with y := p.y - speed * 0.45, x := p.x + speed * 0.7,
                 r := 100, g := 210, b := 140 }
      else
        { p with x := p.x + speed, y := p.y + jitter * 0.4,
                 r := 180, g := 220, b := 255 }
  | AirType.tumbler =>
      let dx := p.x - pp.x
      let dy := p.y - pp.y
      let dist := env.sqrt (dx * dx + dy * dy)
      let inFront := dx > -pp.width ∧ dx < pp.width * 0.3
      let nearBody := |dy| < pp.height * 1.5
      if inFront ∧ nearBody ∧ dist < pp.width * 1.5 then
        { p with x := p.x + speed * 0.2,
                 y := p.y + (if dy > 0 then 1 else -1) * speed * 0.7 + jitter * 2,
                 r := 255, g := 140 + ⌊rnd.color * 30⌋, b := 80 }
      else
        { p with x := p.x + speed * 0.85,
                 y := p.y + jitter * 0.8 + env.sin (time * 5 + p.jitterPhase) * 0.6,
                 r := 200, g := 200, b := 255 }
  | AirType.other => p

/-- The wrap-around check of `Particle.update` (lines 114-117):
off the right edge, reset to the left.  `cw` is the canvas CSS width. -/
def wrap (rnd : PRands) (cw ch : ℚ) (p : Particle) : Particle :=
  if p.x > cw + 10 then reset rnd ch p else p

/-- The vertical-bounds fix of `Particle.update` (lines 118-121). -/
def bound (rnd : PRands) (ch : ℚ) (p : Particle) : Particle :=
  let p := if p.y < 30 then { p with y := 30 + rnd.loY * 10 } else p
  if p.y > ch - 30 then { p with y := ch - 30 - rnd.hiY * 10 } else p

/-- `Particle.update` (lines 50-122): movement, then wrap check, then
vertical bounds fix, in source order. -/
def update (env : Env) (rnd : PRands) (windSpeed : ℚ) (ty : AirType)
    (pp : Pos) (cw ch : ℚ) (p : Particle) : Particle :=
  bound rnd ch (wrap rnd cw ch (move env rnd windSpeed ty pp p))

end Particle

/-- Simulation state of one `PaperAirplane` (class at lines 209-643;
`_tunnelWidth`, `_launchStartX`, `_launchStartY` are the launch bookkeeping
fields, initialised to 0 before the first `launch`). -/
structure PaperAirplane where
  type : AirType
  homeX : ℚ
  homeY : ℚ
  x : ℚ
  y : ℚ
  angle : ℚ
  wobble : ℚ
  scale : ℚ
  launched : Bool
  launchProgress : ℚ
  launchPhase : Phase
  bounceProgress : ℚ
  width : ℚ
  height : ℚ
  tunnelWidth : ℚ
  launchStartX : ℚ
  launchStartY : ℚ
deriving Repr, DecidableEq

namespace PaperAirplane

/-- The `PaperAirplane` constructor (lines 215-242). -/
def mk' (ty : AirType) (x y : ℚ) : PaperAirplane where
  type := ty
  homeX := x
  homeY := y
  x := x
  y := y
  angle := 0
  wobble := 0
  scale := 1
  launched := false
  launchProgress := 0
  launchPhase := Phase.fly
  bounceProgress := 0
  width := match ty with | AirType.dart => 80 | AirType.glider => 60 | _ => 50
  height := match ty with | AirType.dart => 30 | AirType.glider => 100 | _ => 60
  tunnelWidth := 0
  launchStartX := 0
  launchStartY := 0

/-- `get pos` (lines 245-252): bounding info consumed by particles. -/
def pos (p : PaperAirplane) : Pos :=
  { x := p.x, y := p.y, width := p.width * p.scale, height := p.height * p.scale }

/-- `PaperAirplane.react` (lines 535-560): idle oscillation. -/
def react (env : Env) (windSpeed : ℚ) (p : PaperAirplane) : PaperAirplane :=
  if p.launched then p
  else
    let t := env.now / 1000
    let w := windSpeed / 10
    match p.type with
    | AirType.dart =>
        let wob := env.sin (t * 1.5) * 0.015 * windSpeed
        { p with wobble := wob, angle := wob,
                 x := p.homeX + env.sin (t * 0.8) * 1.5,
                 y := p.homeY + env.sin (t * 1.2) * 1.0 }
    | AirType.glider =>
        { p with wobble := env.sin (t * 1.0) * 0.03 * windSpeed,
                 angle := -0.05 * w + env.sin (t * 0.6) * 0.02,
                 x := p.homeX + env.sin (t * 0.5) * 2,
                 y := p.homeY - windSpeed * 3.5 + env.sin (t * 0.9) * 3 }
    | _ =>
        let wob := env.sin (t * 3.5) * 0.12 * w
        { p with wobble := wob,
                 angle := wob + env.sin (t * 5) * 0.04 * windSpeed,
                 x := p.homeX + windSpeed * 2.5 + env.sin (t * 2) * 3,
                 y := p.homeY + env.sin (t * 1.8) * 4 * w }

/-- `PaperAirplane.launch` (lines 566-575): begin the fly-through. -/
def launch (tunnelWidth : ℚ) (p : PaperAirplane) : PaperAirplane :=
  if p.launched then p
  else
    { p with launched := true, launchProgress := 0, launchPhase := Phase.fly,
             bounceProgress := 0, tunnelWidth := tunnelWidth,
             launchStartX := p.x, launchStartY := p.y }

/-- The per-type fly rate of `updateLaunch` (lines 586-589). -/
def flyRate (ty : AirType) : ℚ :=
  match ty with
  | AirType.dart => 0.022
  | AirType.glider => 0.014
  | _ => 0.008

/-- `PaperAirplane.updateLaunch` (lines 581-642): the launch state machine.
The returned plane is the mutated `this`; the boolean return value of the
source is recoverable as the `launched` field. -/
def updateLaunch (env : Env) (p : PaperAirplane) : PaperAirplane :=
  if p.launched = false then p
  else if p.launchPhase = Phase.fly then
    let rate := flyRate p.type
    let lp := p.launchProgress + rate
    let pr := lp
    let tw := p.tunnelWidth
    let nxya : ℚ × ℚ × ℚ :=
      match p.type with
      | AirType.dart =>
          (p.launchStartX + pr * (tw + 40),
           p.launchStartY + env.sin (pr * env.pi) * (-5),
           0)
      | AirType.glider =>
          (p.launchStartX + pr * (tw + 40),
           p.launchStartY + env.sin (pr * env.pi) * (-50),
           -(env.sin (pr * env.pi)) * 0.15)
      | _ =>
          (p.launchStartX + pr * (tw + 40),
           p.launchStartY + pr * 30 + env.sin (pr * env.pi * 6) * 8,
           env.sin (pr * env.pi * 8) * 0.25)
    let p := { p with launchProgress := lp,
                      x := nxya.1, y := nxya.2.1, angle := nxya.2.2 }
    if p.launchProgress ≥ 1 then
      { p with launchPhase := Phase.bounce, bounceProgress := 0 }
    else p
  else
    let bpr := p.bounceProgress + 0.035
    let bp := min bpr 1
    let ease := 1 - (1 - bp) ^ 3
    let overshoot := env.sin (bp * env.pi * 3) * (1 - bp) * 15
    let p := { p with bounceProgress := bpr,
                      x := p.tunnelWidth + 60 + (p.homeX - p.tunnelWidth - 60) * ease + overshoot,
                      y := p.y + (p.homeY - p.y) * 0.08,
                      angle := p.angle * 0.92 }
    if p.bounceProgress ≥ 1 then
      { p with launched := false, x := p.homeX, y := p.homeY, angle := 0 }
    else p

end PaperAirplane

/-- Simulation state of one `Sparkle` (class at lines 168-204; `size` and
`color` are rendering-only and omitted). -/
structure Sparkle where
  x : ℚ
  y : ℚ
  vx : ℚ
  vy : ℚ
  life : ℚ
deriving Repr, DecidableEq

/-- `Sparkle.update` (lines 183-189). -/
def Sparkle.update (s : Sparkle) : Sparkle :=
  { s with x := s.x + s.vx, y := s.y + s.vy,
           vy := s.vy + 0.12, vx := s.vx * 0.98, life := s.life - 0.02 }

/-- Simulation state of one `WindTunnel` (class at lines 648-923;
`canvas`/`ctx`/`animationId` are external DOM handles and are not part of
the simulation state; `shakeOffset` is kept as two fields). -/
structure WindTunnel where
  type : AirType
  windSpeed : ℚ
  isHovered : Bool
  visible : Bool
  shakeX : ℚ
  shakeY : ℚ
  sparkles : List Sparkle
  displayWidth : ℚ
  displayHeight : ℚ
  airplane : PaperAirplane
  particles : List Particle

namespace WindTunnel

/-- One fresh `Particle` as constructed inside `_fillParticles`
(lines 716-719 together with the constructor, lines 20-40). -/
def freshParticle (env : Env) (dw dh : ℚ) (i : ℕ) : Particle :=
  let r := env.fillRands i
  let y := 35 + r.posY * (dh - 70)
  { x := r.posX * dw, y := y, originY := y, baseSpeed := 1 + r.spd * 2,
    jitterPhase := r.phase * (env.pi * 2), jitterAmp := 0.3 + r.amp * 0.5,
    r := 180 + ⌊r.colR * 75⌋, g := 210 + ⌊r.colG * 45⌋, b := 255 }

/-- `WindTunnel._fillParticles` (lines 714-725): grow the pool with fresh
particles up to `target`, or trim it from the end down to `target`. -/
def fillParticles (env : Env) (dw dh : ℚ) (ps : List Particle) (target : ℕ) :
    List Particle :=
  if ps.length < target then
    ps ++ (List.range (target - ps.length)).map (freshParticle env dw dh)
  else
    ps.take target

/-- `WindTunnel.setWindSpeed` (lines 841-846): clamp, store, resize pool.
The pool target `80 + Math.floor((windSpeed / 10) * 40)` is a nonnegative
integer; `Int.toNat` casts it to the list-length type. -/
def setWindSpeed (env : Env) (speed : ℚ) (t : WindTunnel) : WindTunnel :=
  let ws := max 1 (min 10 speed)
  let target := (80 + ⌊ws / 10 * 40⌋).toNat
  { t with windSpeed := ws,
           particles := fillParticles env t.displayWidth t.displayHeight
                          t.particles target }

/-- `WindTunnel.animate` (lines 854-914): one tick of the frame loop.
Drawing calls are stateless and omitted; the returned boolean models the
`requestAnimationFrame` call (the next frame being requested).  The sparkle
backwards-splice of dead sparkles (lines 903-909) is the filter keeping
`life > 0` after the per-sparkle update. -/
def animate (env : Env) (t : WindTunnel) : WindTunnel × Bool :=
  if t.visible = false then (t, true)
  else
    let t :=
      if t.windSpeed ≥ 10 then
        { t with shakeX := (env.shakeRand1 - 0.5) * 2,
                 shakeY := (env.shakeRand2 - 0.5) * 2 }
      else { t with shakeX := 0, shakeY := 0 }
    let planePos := t.airplane.pos
    let particles := t.particles.mapIdx fun i p =>
      Particle.update env (env.prands i) t.windSpeed t.type planePos
        t.displayWidth t.displayHeight p
    let airplane :=
      if t.airplane.launched then PaperAirplane.updateLaunch env t.airplane
      else PaperAirplane.react env t.windSpeed t.airplane
    let sparkles := (t.sparkles.map Sparkle.update).filter fun s => s.life > 0
    ({ t with particles := particles, airplane := airplane,
              sparkles := sparkles }, true)

end WindTunnel

/-- One trail sample of a `Streamline` (`this.points` entries, line 1135). -/
structure SPoint where
  x : ℚ
  y : ℚ
  r : ℤ
  g : ℤ
  b : ℤ
deriving Repr, DecidableEq

/-- Simulation state of one `Streamline` (class at lines 1030-1173 of the
second variant in src/app.js). -/
structure Streamline where
  baseY : ℚ
  x : ℚ
  y : ℚ
  opacity : ℚ
  thickness : ℚ
  speed : ℚ
  r : ℤ
  g : ℤ
  b : ℤ
  maxPoints : ℕ
  points : List SPoint
deriving Repr, DecidableEq

namespace Streamline

/-- The dart-branch lateral deflection of `Streamline.update`
(lines 1072-1075): `dy += (relY > 0 ? 1 : -1) * pushStrength * spd` with
`pushStrength = (1 - dist / deflectRadius) * 4` inside the radius, zero
outside. -/
def dartStreamDy (spd deflectRadius dist relY : ℚ) : ℚ :=
  if dist < deflectRadius ∧ dist > 0 then
    (if relY > 0 then 1 else -1) * ((1 - dist / deflectRadius) * 4) * spd
  else 0

/-- The per-type branching of `Streamline.update` (lines 1069-1127).
Takes the pre-branch quantities and the streamline's current colour;
returns the final `(dx, dy, r, g, b)`. -/
def deflect (env : Env) (rnd : SRands) (windSpeed : ℚ) (ty : AirType)
    (baseY spd pw ph relX relY dist : ℚ) (r0 g0 b0 : ℤ) :
    ℚ × ℚ × ℤ × ℤ × ℤ :=
  let dx := -spd
  let dy : ℚ := 0
  let inZone := |relX| < pw ∧ |relY| < ph
  let approaching := relX > -pw * 0.2 ∧ relX < pw * 0.7
  let nearBody := |relY| < ph * 0.8
  match ty with
  | AirType.dart =>
      if inZone ∨ (approaching ∧ nearBody) then
        let deflectRadius := pw * 0.5
        let dy := dy + dartStreamDy spd deflectRadius dist relY
        let dx := if dist < deflectRadius ∧ dist > 0 then dx * 0.75 else dx
        let dx := if relX < 0 then dx * 1.1 else dx
        (dx, dy, 100, 210, 255)
      else (dx, dy, 120, 180, 255)
  | AirType.glider =>
      let wingSpan := ph * 0.8
      let nearWings := |relX| < pw * 0.6 ∧ |relY| < wingSpan
      if nearWings ∨ (approaching ∧ |relY| < wingSpan) then
        let deflectRadius := max pw ph * 0.6
        let dydxc : ℚ × ℚ × ℤ × ℤ × ℤ :=
          if dist < deflectRadius ∧ dist > 0 then
            let pushStrength := (1 - dist / deflectRadius) * 4.5
            if relY > 0 then
              (dy - pushStrength * spd * 1.5, dx * 0.7, 50, 235, 100)
            else
              (dy + pushStrength * spd * 0.6, dx * 0.7, 100, 210, 255)
          else (dy, dx, r0, g0, b0)
        let dy := dydxc.1
        let dx := dydxc.2.1
        if relX < -pw * 0.15 then
          (dx, dy - 0.35 * spd, 80, 225, 120)
        else
          (dx, dy, dydxc.2.2.1, dydxc.2.2.2.1, dydxc.2.2.2.2)
      else (dx, dy, 120, 180, 255)
  | AirType.tumbler =>
      let bluntRadius := max pw ph * 0.75
      let nearFront := relX < pw * 0.7 ∧ relX > -pw * 0.3
      if (nearFront ∧ nearBody) ∨ dist < bluntRadius then
        if relX > 0 then
          let scatter := (1 - dist / bluntRadius) * 6
          (dx * 0.1, dy + (if relY > 0 then 1 else -1) * scatter * spd,
           255, 100, 60)
        else
          (dx * 0.4,
           dy + (env.sin (env.now / 80 + baseY * 0.1) * 3.5 +
                 (rnd.jitter - 0.5) * 5) * (windSpeed / 5),
           255, 140, 80)
      else (dx, dy, 120, 180, 255)
  | AirType.other => (dx, dy, r0, g0, b0)

/-- The movement/clamp/trail part of `Streamline.update` (lines 1049-1136):
everything before the recycle check.  `pl` is the airplane whose scaled
bounds form the interaction zone; `w`/`h` are the resolved
`canvas._displayW` / `canvas._displayH`. -/
def core (env : Env) (rnd : SRands) (windSpeed : ℚ) (ty : AirType)
    (pl : PaperAirplane) (w h : ℚ) (sl : Streamline) : Streamline :=
  let spd := sl.speed * (windSpeed / 3)
  let pw := pl.width * pl.scale * 0.5
  let ph := pl.height * pl.scale * 0.5
  let relX := sl.x - pl.x
  let relY := sl.y - pl.y
  let dist := env.sqrt (relX * relX + relY * relY)
  let d := deflect env rnd windSpeed ty sl.baseY spd pw ph relX relY dist
             sl.r sl.g sl.b
  let x := sl.x + d.1
  let y := sl.y + d.2.1
  let y := if y < 15 then 15 else y
  let y := if y > h - 15 then h - 15 else y
  let points := sl.points ++ [⟨x, y, d.2.2.1, d.2.2.2.1, d.2.2.2.2⟩]
  let points := if points.length > sl.maxPoints then points.tail else points
  { sl with x := x, y := y, r := d.2.2.1, g := d.2.2.2.1, b := d.2.2.2.2,
            points := points }

/-- The recycle check of `Streamline.update` (lines 1138-1142): off the
left edge, back to the right edge at the streamline's own `baseY` with an
empty trail. -/
def recycle (rnd : SRands) (w : ℚ) (sl : Streamline) : Streamline :=
  if sl.x < -20 then
    { sl with x := w + rnd.recycle * 40, y := sl.baseY, points := [] }
  else sl

/-- `Streamline.update` (lines 1049-1143): core movement then recycle,
in source order. -/
def update (env : Env) (rnd : SRands) (windSpeed : ℚ) (ty : AirType)
    (pl : PaperAirplane) (w h : ℚ) (sl : Streamline) : Streamline :=
  recycle rnd w (core env rnd windSpeed ty pl w h sl)

end Streamline

/-- The control part of the launch state machine: the fields of
`PaperAirplane` that drive `updateLaunch`'s branching, abstracted away
from the geometric fields. -/
structure Ctrl where
  launched : Bool
  phase : Phase
  lp : ℚ
  bp : ℚ
  ty : AirType
deriving DecidableEq, Repr

/-- Project a plane onto its launch control state. -/
def PaperAirplane.ctrl (p : PaperAirplane) : Ctrl :=
  ⟨p.launched, p.launchPhase, p.launchProgress, p.bounceProgress, p.type⟩

/-- The action of `updateLaunch` on the control state alone. -/
def ctrlStep (c : Ctrl) : Ctrl :=
  if c.launched = false then c
  else if c.phase = Phase.fly then
    let lp := c.lp + PaperAirplane.flyRate c.ty
    if lp ≥ 1 then ⟨true, Phase.bounce, lp, 0, c.ty⟩
    else ⟨true, Phase.fly, lp, c.bp, c.ty⟩
  else
    let bp := c.bp + 0.035
    if bp ≥ 1 then ⟨false, c.phase, c.lp, bp, c.ty⟩
    else ⟨true, c.phase, c.lp, bp, c.ty⟩

theorem ctrl_updateLaunch (env : Env) (p : PaperAirplane) :
    (PaperAirplane.updateLaunch env p).ctrl = ctrlStep p.ctrl := by
  rcases p with ⟨ty, hx, hy, x, y, a, w, sc, l, lp, ph, bp, wd, ht, tw, sx, sy⟩
  cases l <;> cases ph <;>
    simp only [PaperAirplane.updateLaunch, PaperAirplane.ctrl, ctrlStep] <;>
    cases ty <;>
    simp_all <;> split <;> simp_all

theorem ctrl_iterate (env : Env) (p : PaperAirplane) (n : ℕ) :
    ((PaperAirplane.updateLaunch env)^[n] p).ctrl = ctrlStep^[n] p.ctrl := by
  induction n with
  | zero => rfl
  | succ n ih =>
      rw [Function.iterate_succ_apply', Function.iterate_succ_apply',
        ctrl_updateLaunch, ih]

theorem ctrlStep_fixed (c : Ctrl) (h : c.launched = false) : ctrlStep c = c := by
  simp [ctrlStep, h]

theorem ctrlStep_iterate_fixed (c : Ctrl) (h : c.launched = false) (n : ℕ) :
    ctrlStep^[n] c = c :=
  Function.iterate_fixed (ctrlStep_fixed c h) n

theorem flyRate_pos (ty : AirType) : 0 < PaperAirplane.flyRate ty := by
  cases ty <;> norm_num [PaperAirplane.flyRate]

theorem ctrlStep_fly (c : Ctrl) (hL : c.launched = true) (hP : c.phase = Phase.fly)
    (hlt : c.lp + PaperAirplane.flyRate c.ty < 1) :
    ctrlStep c = ⟨true, Phase.fly, c.lp + PaperAirplane.flyRate c.ty, c.bp, c.ty⟩ := by
  simp [ctrlStep, hL, hP, not_le.mpr hlt]

theorem ctrlStep_fly_done (c : Ctrl) (hL : c.launched = true)
    (hP : c.phase = Phase.fly) (hge : 1 ≤ c.lp + PaperAirplane.flyRate c.ty) :
    ctrlStep c = ⟨true, Phase.bounce, c.lp + PaperAirplane.flyRate c.ty, 0, c.ty⟩ := by
  simp [ctrlStep, hL, hP, hge]

theorem ctrlStep_bounce (c : Ctrl) (hL : c.launched = true)
    (hP : c.phase = Phase.bounce) (hlt : c.bp + 0.035 < 1) :
    ctrlStep c = ⟨true, Phase.bounce, c.lp, c.bp + 0.035, c.ty⟩ := by
  have : ¬ c.phase = Phase.fly := by rw [hP]; decide
  simp [ctrlStep, hL, this, not_le.mpr hlt, hP]

theorem ctrlStep_bounce_done (c : Ctrl) (hL : c.launched = true)
    (hP : c.phase = Phase.bounce) (hge : 1 ≤ c.bp + 0.035) :
    ctrlStep c = ⟨false, Phase.bounce, c.lp, c.bp + 0.035, c.ty⟩ := by
  have : ¬ c.phase = Phase.fly := by rw [hP]; decide
  simp [ctrlStep, hL, this, hge, hP]

theorem ctrl_fly_iter (ty : AirType) (bp0 : ℚ) (n : ℕ)
    (hn : (n : ℚ) * PaperAirplane.flyRate ty < 1) :
    ctrlStep^[n] ⟨true, Phase.fly, 0, bp0, ty⟩
      = ⟨true, Phase.fly, (n : ℚ) * PaperAirplane.flyRate ty, bp0, ty⟩ := by
  induction n with
  | zero => simp
  | succ n ih =>
      have hrate := flyRate_pos ty
      have hstep : (n : ℚ) * PaperAirplane.flyRate ty
          < ((n : ℕ) + 1 : ℚ) * PaperAirplane.flyRate ty := by nlinarith
      have hn' : (n : ℚ) * PaperAirplane.flyRate ty < 1 := by push_cast at hn ⊢; nlinarith
      rw [Function.iterate_succ_apply', ih hn']
      rw [ctrlStep_fly _ rfl rfl (by push_cast at hn ⊢; linarith)]
      congr 1
      push_cast
      ring

theorem ctrl_fly_to_bounce (ty : AirType) (bp0 : ℚ) (F : ℕ) (hF : 1 ≤ F)
    (h1 : ((F : ℚ) - 1) * PaperAirplane.flyRate ty < 1)
    (h2 : 1 ≤ (F : ℚ) * PaperAirplane.flyRate ty) :
    ctrlStep^[F] ⟨true, Phase.fly, 0, bp0, ty⟩
      = ⟨true, Phase.bounce, (F : ℚ) * PaperAirplane.flyRate ty, 0, ty⟩ := by
  obtain ⟨m, rfl⟩ : ∃ m, F = m + 1 := ⟨F - 1, by omega⟩
  have hm : (m : ℚ) = ((m + 1 : ℕ) : ℚ) - 1 := by push_cast; ring
  rw [Function.iterate_succ_apply', ctrl_fly_iter ty bp0 m (by rw [hm]; exact h1)]
  rw [ctrlStep_fly_done _ rfl rfl (by rw [hm]; push_cast at h2 ⊢; linarith)]
  congr 1
  push_cast
  ring

theorem ctrl_bounce_iter (ty : AirType) (lp0 : ℚ) (n : ℕ)
    (hn : (n : ℚ) * 0.035 < 1) :
    ctrlStep^[n] ⟨true, Phase.bounce, lp0, 0, ty⟩
      = ⟨true, Phase.bounce, lp0, (n : ℚ) * 0.035, ty⟩ := by
  induction n with
  | zero => simp
  | succ n ih =>
      have hn' : (n : ℚ) * 0.035 < 1 := by push_cast at hn ⊢; nlinarith
      rw [Function.iterate_succ_apply', ih hn']
      rw [ctrlStep_bounce _ rfl rfl (by push_cast at hn ⊢; linarith)]
      congr 1
      push_cast
      ring

theorem ctrl_bounce_done (ty : AirType) (lp0 : ℚ) :
    (ctrlStep^[29] ⟨true, Phase.bounce, lp0, 0, ty⟩).launched = false := by
  have h28 : ctrlStep^[28] ⟨true, Phase.bounce, lp0, 0, ty⟩
      = ⟨true, Phase.bounce, lp0, (28 : ℚ) * 0.035, ty⟩ :=
    ctrl_bounce_iter ty lp0 28 (by norm_num)
  have : (29 : ℕ) = 28 + 1 := by norm_num
  rw [this, Function.iterate_succ_apply', h28,
    ctrlStep_bounce_done _ rfl rfl (by norm_num)]

/-- Number of `updateLaunch` calls the fly phase takes for each type
(the least `F` with `F * flyRate ty ≥ 1`). -/
def flySteps (ty : AirType) : ℕ :=
  match ty with
  | AirType.dart => 46
  | AirType.glider => 72
  | _ => 125

theorem ctrl_terminates (ty : AirType) (N : ℕ) (hN : flySteps ty + 29 ≤ N) :
    (ctrlStep^[N] ⟨true, Phase.fly, 0, 0, ty⟩).launched = false := by
  obtain ⟨K, rfl⟩ : ∃ K, N = K + (29 + flySteps ty) :=
    ⟨N - (flySteps ty + 29), by omega⟩
  rw [Function.iterate_add_apply, Function.iterate_add_apply]
  have h1 : ctrlStep^[flySteps ty] ⟨true, Phase.fly, 0, 0, ty⟩
      = ⟨true, Phase.bounce, ((flySteps ty : ℕ) : ℚ) * PaperAirplane.flyRate ty, 0, ty⟩ := by
    cases ty <;>
      exact ctrl_fly_to_bounce _ 0 _ (by norm_num [flySteps])
        (by norm_num [flySteps, PaperAirplane.flyRate])
        (by norm_num [flySteps, PaperAirplane.flyRate])
  rw [h1]
  have h2 : (ctrlStep^[29]
      (⟨true, Phase.bounce, ((flySteps ty : ℕ) : ℚ) * PaperAirplane.flyRate ty, 0, ty⟩ : Ctrl)).launched
      = false := ctrl_bounce_done ty _
  rcases hs : ctrlStep^[29]
      (⟨true, Phase.bounce, ((flySteps ty : ℕ) : ℚ) * PaperAirplane.flyRate ty, 0, ty⟩ : Ctrl)
    with ⟨l, ph, lp, bp, ty'⟩
  rw [hs] at h2
  simp at h2
  subst h2
  rw [ctrlStep_iterate_fixed _ rfl]

/-- C1: for every kind and every `windIntensity ∈ [1,10]`, starting just
after a `launch()` from an idle state, 300 iterations of `updateLaunch`
drive the plane back to `launched = false` (Idle).  `updateLaunch` does not
read the wind intensity, so the bound holds uniformly in it. -/
theorem launch_terminates_within_300 (env : Env) (windIntensity tw : ℚ)
    (p : PaperAirplane) (hw1 : 1 ≤ windIntensity) (hw2 : windIntensity ≤ 10)
    (hIdle : p.launched = false) :
    ((PaperAirplane.updateLaunch env)^[300]
        (PaperAirplane.launch tw p)).launched = false := by
  have hc : (PaperAirplane.launch tw p).ctrl
      = ⟨true, Phase.fly, 0, 0, p.type⟩ := by
    simp [PaperAirplane.launch, PaperAirplane.ctrl, hIdle]
  have hproj : ∀ q : PaperAirplane, q.launched = q.ctrl.launched :=
    fun _ => rfl
  rw [hproj, ctrl_iterate, hc]
  exact ctrl_terminates p.type 300 (by cases p.type <;> norm_num [flySteps])

/-- Witness for C1 at a concrete input. -/
theorem launch_terminates_within_300_witness :
    ((PaperAirplane.updateLaunch env0)^[300]
        (PaperAirplane.launch 600 (PaperAirplane.mk' AirType.dart 228 175))).launched
      = false :=
  launch_terminates_within_300 env0 5 600 _ (by norm_num) (by norm_num) rfl

theorem updateLaunch_idle (env : Env) (s : PaperAirplane)
    (h : s.launched = false) : PaperAirplane.updateLaunch env s = s := by
  simp [PaperAirplane.updateLaunch, h]

theorem updateLaunch_frozen (env : Env) (s : PaperAirplane) :
    (PaperAirplane.updateLaunch env s).tunnelWidth = s.tunnelWidth ∧
    (PaperAirplane.updateLaunch env s).homeX = s.homeX ∧
    (PaperAirplane.updateLaunch env s).homeY = s.homeY ∧
    (PaperAirplane.updateLaunch env s).type = s.type ∧
    (PaperAirplane.updateLaunch env s).launchStartX = s.launchStartX := by
  simp only [PaperAirplane.updateLaunch]
  split
  · exact ⟨rfl, rfl, rfl, rfl, rfl⟩
  split
  · split <;> exact ⟨rfl, rfl, rfl, rfl, rfl⟩
  · split <;> exact ⟨rfl, rfl, rfl, rfl, rfl⟩

theorem updateLaunch_fly (env : Env) (s : PaperAirplane)
    (hl : s.launched = true) (hp : s.launchPhase = Phase.fly) :
    (PaperAirplane.updateLaunch env s).launched = true ∧
    (PaperAirplane.updateLaunch env s).launchStartX = s.launchStartX ∧
    (PaperAirplane.updateLaunch env s).tunnelWidth = s.tunnelWidth ∧
    (PaperAirplane.updateLaunch env s).homeX = s.homeX ∧
    (PaperAirplane.updateLaunch env s).homeY = s.homeY ∧
    (PaperAirplane.updateLaunch env s).launchProgress
      = s.launchProgress + PaperAirplane.flyRate s.type ∧
    (PaperAirplane.updateLaunch env s).x
      = s.launchStartX
        + (s.launchProgress + PaperAirplane.flyRate s.type) * (s.tunnelWidth + 40) := by
  cases hty : s.type <;>
    simp only [PaperAirplane.updateLaunch, hl, hp, hty] <;>
    simp_all [PaperAirplane.flyRate] <;>
    split <;> simp_all

theorem updateLaunch_bounce (env : Env) (s : PaperAirplane)
    (hl : s.launched = true) (hp : ¬ s.launchPhase = Phase.fly) :
    (PaperAirplane.updateLaunch env s).launchPhase = s.launchPhase ∧
    (PaperAirplane.updateLaunch env s).homeX = s.homeX ∧
    (PaperAirplane.updateLaunch env s).homeY = s.homeY ∧
    ((PaperAirplane.updateLaunch env s).launched = false →
      (PaperAirplane.updateLaunch env s).x = s.homeX ∧
      (PaperAirplane.updateLaunch env s).y = s.homeY ∧
      (PaperAirplane.updateLaunch env s).angle = 0) := by
  simp only [PaperAirplane.updateLaunch, hl, hp]
  split_ifs <;> simp_all

/-- Invariant along the launch animation: the bookkeeping fields are
frozen, in the fly phase `x` tracks the linear formula, and an un-launched
plane sits exactly at home with angle 0. -/
def flyInv (tw hx hy : ℚ) (s : PaperAirplane) : Prop :=
  s.tunnelWidth = tw ∧ s.homeX = hx ∧ s.homeY = hy ∧
  (s.launched = true → s.launchPhase = Phase.fly →
    s.x = s.launchStartX + s.launchProgress * (tw + 40)) ∧
  (s.launched = false → s.x = hx ∧ s.y = hy ∧ s.angle = 0)

theorem flyInv_step (env : Env) (tw hx hy : ℚ) (s : PaperAirplane)
    (h : flyInv tw hx hy s) :
    flyInv tw hx hy (PaperAirplane.updateLaunch env s) := by
  obtain ⟨h1, h2, h3, h4, h5⟩ := h
  by_cases hl : s.launched = true
  · by_cases hp : s.launchPhase = Phase.fly
    · obtain ⟨f1, f2, f3, f4, f5, f6, f7⟩ := updateLaunch_fly env s hl hp
      refine ⟨by rw [f3, h1], by rw [f4, h2], by rw [f5, h3], ?_, ?_⟩
      · intro _ _
        rw [f7, f2, f6, h1]
      · intro hcontra
        rw [f1] at hcontra
        exact absurd hcontra (by decide)
    · obtain ⟨b1, b2, b3, b4⟩ := updateLaunch_bounce env s hl hp
      have hconst : (PaperAirplane.updateLaunch env s).tunnelWidth = s.tunnelWidth :=
        (updateLaunch_frozen env s).1
      refine ⟨by rw [hconst, h1], by rw [b2, h2], by rw [b3, h3], ?_, ?_⟩
      · intro _ hfly
        rw [b1] at hfly
        exact absurd hfly hp
      · intro hoff
        obtain ⟨e1, e2, e3⟩ := b4 hoff
        exact ⟨by rw [e1, h2], by rw [e2, h3], e3⟩
  · have hl' : s.launched = false := by revert hl; cases s.launched <;> simp
    rw [updateLaunch_idle env s hl']
    exact ⟨h1, h2, h3, h4, h5⟩

theorem flyInv_iterate (env : Env) (tw : ℚ) (p : PaperAirplane)
    (hIdle : p.launched = false) (m : ℕ) :
    flyInv tw p.homeX p.homeY
      ((PaperAirplane.updateLaunch env)^[m] (PaperAirplane.launch tw p)) := by
  induction m with
  | zero =>
      refine ⟨?_, ?_, ?_, ?_, ?_⟩ <;>
        simp [PaperAirplane.launch, hIdle, flyInv]
  | succ m ih =>
      rw [Function.iterate_succ_apply']
      exact flyInv_step env tw p.homeX p.homeY _ ih

/-- C3: in the end-to-end launch scenario (launch once from idle, then
iterate `updateLaunch`), the horizontal position strictly increases on
every step taken in the fly phase, and whenever the plane is back to
un-launched (Idle) it sits exactly at home with angle exactly 0. -/
theorem launch_scenario_fly_monotone_home (env : Env) (tw : ℚ)
    (p : PaperAirplane) (n : ℕ) (hIdle : p.launched = false) (htw : 0 < tw) :
    ((((PaperAirplane.updateLaunch env)^[n] (PaperAirplane.launch tw p)).launched = true ∧
      ((PaperAirplane.updateLaunch env)^[n] (PaperAirplane.launch tw p)).launchPhase
        = Phase.fly) →
      ((PaperAirplane.updateLaunch env)^[n] (PaperAirplane.launch tw p)).x
        < ((PaperAirplane.updateLaunch env)^[n + 1] (PaperAirplane.launch tw p)).x) ∧
    (((PaperAirplane.updateLaunch env)^[n] (PaperAirplane.launch tw p)).launched = false →
      ((PaperAirplane.updateLaunch env)^[n] (PaperAirplane.launch tw p)).x = p.homeX ∧
      ((PaperAirplane.updateLaunch env)^[n] (PaperAirplane.launch tw p)).y = p.homeY ∧
      ((PaperAirplane.updateLaunch env)^[n] (PaperAirplane.launch tw p)).angle = 0) := by
  obtain ⟨i1, i2, i3, i4, i5⟩ := flyInv_iterate env tw p hIdle n
  constructor
  · rintro ⟨hL, hP⟩
    rw [Function.iterate_succ_apply']
    obtain ⟨f1, f2, f3, f4, f5, f6, f7⟩ :=
      updateLaunch_fly env ((PaperAirplane.updateLaunch env)^[n]
        (PaperAirplane.launch tw p)) hL hP
    rw [f7, i4 hL hP, i1]
    have hr := flyRate_pos ((PaperAirplane.updateLaunch env)^[n]
      (PaperAirplane.launch tw p)).type
    nlinarith
  · exact i5

/-- Witness for C3 at a concrete input (the very first fly step). -/
theorem launch_scenario_fly_monotone_home_witness :
    ((PaperAirplane.updateLaunch env0)^[0]
        (PaperAirplane.launch 600 (PaperAirplane.mk' AirType.dart 228 175))).x
      < ((PaperAirplane.updateLaunch env0)^[0 + 1]
        (PaperAirplane.launch 600 (PaperAirplane.mk' AirType.dart 228 175))).x :=
  (launch_scenario_fly_monotone_home env0 600 (PaperAirplane.mk' AirType.dart 228 175)
    0 rfl (by norm_num)).1 ⟨rfl, rfl⟩

/-- C7: `launch()` while already launched is a no-op leaving the whole
plane state (position, angle, progress, phase, bookkeeping) unchanged. -/
theorem launch_noop_when_launched (tw : ℚ) (p : PaperAirplane)
    (h : p.launched = true) : PaperAirplane.launch tw p = p := by
  simp [PaperAirplane.launch, h]

/-- Witness for C7: a second `launch` on an already launched plane. -/
theorem launch_noop_when_launched_witness :
    PaperAirplane.launch 600
        (PaperAirplane.launch 450 (PaperAirplane.mk' AirType.glider 228 175))
      = PaperAirplane.launch 450 (PaperAirplane.mk' AirType.glider 228 175) :=
  launch_noop_when_launched 600 _ rfl

/-- C6: `setWindSpeed` stores exactly the clamp of its input to `[1,10]`;
any input is accepted. -/
theorem setWindSpeed_stores_clamp (env : Env) (v : ℚ) (t : WindTunnel) :
    (WindTunnel.setWindSpeed env v t).windSpeed = max 1 (min 10 v) := rfl

theorem fillParticles_length (env : Env) (dw dh : ℚ) (ps : List Particle)
    (target : ℕ) :
    (WindTunnel.fillParticles env dw dh ps target).length = target := by
  unfold WindTunnel.fillParticles
  split
  · simp
    omega
  · simp
    omega

theorem setWindSpeed_length (env : Env) (v : ℚ) (t : WindTunnel) :
    ((WindTunnel.setWindSpeed env v t).particles.length : ℤ)
      = 80 + ⌊max 1 (min 10 v) / 10 * 40⌋ := by
  have h4 : (4 : ℚ) ≤ max 1 (min 10 v) / 10 * 40 := by
    have h1 : (1 : ℚ) ≤ max 1 (min 10 v) := le_max_left _ _
    have he : max 1 (min 10 v) / 10 * 40 = 4 * max 1 (min 10 v) := by ring
    linarith [he ▸ le_refl (max 1 (min 10 v) / 10 * 40)]
  have hnn : (0 : ℤ) ≤ 80 + ⌊max 1 (min 10 v) / 10 * 40⌋ := by
    have : (4 : ℤ) ≤ ⌊max 1 (min 10 v) / 10 * 40⌋ := by
      rw [Int.le_floor]
      exact_mod_cast h4
    linarith
  have hlen : (WindTunnel.setWindSpeed env v t).particles.length
      = (80 + ⌊max 1 (min 10 v) / 10 * 40⌋).toNat :=
    fillParticles_length env t.displayWidth t.displayHeight t.particles _
  rw [hlen, Int.toNat_of_nonneg hnn]

/-- `Math.round` of the claim, modelled from the spec's wording
(round half away from zero is irrelevant here; for the nonnegative inputs
involved JS `Math.round` is floor of `q + 1/2`). -/
def specRound (q : ℚ) : ℤ := ⌊q + 1 / 2⌋

/-- A concrete idle tunnel with an empty pool. -/
def tun0 : WindTunnel where
  type := AirType.dart
  windSpeed := 3
  isHovered := false
  visible := true
  shakeX := 0
  shakeY := 0
  sparkles := []
  displayWidth := 600
  displayHeight := 350
  airplane := PaperAirplane.mk' AirType.dart 228 175
  particles := []

/-- C5 counterexample: at `v = 1.7` the code's pool size is
`80 + floor(6.8) = 86`, not `80 + round(6.8) = 87` as the claim states. -/
theorem pool_size_round_cex :
    ((WindTunnel.setWindSpeed env0 (17/10) tun0).particles.length : ℤ)
      ≠ 80 + specRound (max 1 (min 10 (17/10)) / 10 * 40) := by
  rw [setWindSpeed_length]
  have h1 : (max 1 (min 10 (17/10)) : ℚ) = 17/10 := by norm_num
  rw [h1]
  have h2 : ((17 : ℚ)/10) / 10 * 40 = 34/5 := by norm_num
  rw [h2]
  have hf : ⌊(34/5 : ℚ)⌋ = 6 := by
    rw [Int.floor_eq_iff]
    norm_num
  have hr : specRound (34/5) = 7 := by
    unfold specRound
    rw [show (34/5 : ℚ) + 1/2 = 73/10 by norm_num]
    rw [Int.floor_eq_iff]
    norm_num
  rw [hf, hr]
  norm_num

/-- C5 amended: the pool size after `setWindSpeed v` is
`80 + floor(clamp(v,1,10)/10*40)` (floor, not round); it is non-decreasing
in `v` and always lies in `[80, 120]`. -/
theorem pool_size_floor_monotone_bounded :
    (∀ (env : Env) (t : WindTunnel) (v : ℚ),
      ((WindTunnel.setWindSpeed env v t).particles.length : ℤ)
        = 80 + ⌊max 1 (min 10 v) / 10 * 40⌋) ∧
    (∀ (env : Env) (t : WindTunnel) (v₁ v₂ : ℚ), v₁ ≤ v₂ →
      (WindTunnel.setWindSpeed env v₁ t).particles.length
        ≤ (WindTunnel.setWindSpeed env v₂ t).particles.length) ∧
    (∀ (env : Env) (t : WindTunnel) (v : ℚ),
      80 ≤ (WindTunnel.setWindSpeed env v t).particles.length ∧
      (WindTunnel.setWindSpeed env v t).particles.length ≤ 120) := by
  refine ⟨fun env t v => setWindSpeed_length env v t, ?_, ?_⟩
  · intro env t v₁ v₂ h
    have e1 := setWindSpeed_length env v₁ t
    have e2 := setWindSpeed_length env v₂ t
    have hm : max 1 (min 10 v₁) / 10 * 40 ≤ max 1 (min 10 v₂) / 10 * 40 := by
      have : max 1 (min 10 v₁) ≤ max 1 (min 10 v₂) :=
        max_le_max le_rfl (min_le_min le_rfl h)
      have e3 : max 1 (min 10 v₁) / 10 * 40 = 4 * max 1 (min 10 v₁) := by ring
      have e4 : max 1 (min 10 v₂) / 10 * 40 = 4 * max 1 (min 10 v₂) := by ring
      rw [e3, e4]
      linarith
    have hf := Int.floor_le_floor hm
    have : ((WindTunnel.setWindSpeed env v₁ t).particles.length : ℤ)
        ≤ ((WindTunnel.setWindSpeed env v₂ t).particles.length : ℤ) := by
      rw [e1, e2]
      linarith
    exact_mod_cast this
  · intro env t v
    have e := setWindSpeed_length env v t
    have h1 : (1 : ℚ) ≤ max 1 (min 10 v) := le_max_left _ _
    have h2 : max 1 (min 10 v) ≤ 10 :=
      max_le (by norm_num) (min_le_left _ _)
    have hf1 : (4 : ℤ) ≤ ⌊max 1 (min 10 v) / 10 * 40⌋ := by
      rw [Int.le_floor]
      push_cast
      nlinarith
    have hf2 : ⌊max 1 (min 10 v) / 10 * 40⌋ ≤ 40 := by
      have hle : max 1 (min 10 v) / 10 * 40 ≤ 40 := by nlinarith
      have := Int.floor_le_floor hle
      simpa using this
    constructor
    · have : (80 : ℤ) ≤ ((WindTunnel.setWindSpeed env v t).particles.length : ℤ) := by
        rw [e]; linarith
      exact_mod_cast this
    · have : ((WindTunnel.setWindSpeed env v t).particles.length : ℤ) ≤ 120 := by
        rw [e]; linarith
      exact_mod_cast this

/-- Witness for the amended C5 monotonicity at concrete inputs. -/
theorem pool_size_floor_monotone_bounded_witness :
    (WindTunnel.setWindSpeed env0 2 tun0).particles.length
      ≤ (WindTunnel.setWindSpeed env0 9 tun0).particles.length :=
  pool_size_floor_monotone_bounded.2.1 env0 tun0 2 9 (by norm_num)

/-- C9: a frame tick with `visible = false` leaves the whole tunnel state
(particles, airplane, sparkles, shake) untouched while still requesting
the next frame. -/
theorem animate_invisible_skips (env : Env) (t : WindTunnel)
    (h : t.visible = false) :
    WindTunnel.animate env t = (t, true) := by
  simp [WindTunnel.animate, h]

/-- A concrete off-screen tunnel. -/
def tunOff : WindTunnel :=
  { tun0 with visible := false }

/-- Witness for C9 at a concrete input. -/
theorem animate_invisible_skips_witness :
    WindTunnel.animate env0 tunOff = (tunOff, true) :=
  animate_invisible_skips env0 tunOff rfl

/-- C10: with an unrecognised `airplaneType`, `Particle.update` on a
particle inside the tunnel interior (and not past the exit boundary) is
the identity: position, colour and every other field keep their values,
so such a particle never advances with the wind. -/
theorem update_unknown_type_noop (env : Env) (rnd : PRands) (windSpeed : ℚ)
    (pp : Pos) (cw ch : ℚ) (p : Particle)
    (hy1 : 30 ≤ p.y) (hy2 : p.y ≤ ch - 30) (hx : p.x ≤ cw + 10) :
    Particle.update env rnd windSpeed AirType.other pp cw ch p = p := by
  simp [Particle.update, Particle.move, Particle.wrap, Particle.bound,
    not_lt.mpr hy1, not_lt.mpr hy2, not_lt.mpr hx]

/-- A concrete interior particle. -/
def pInt : Particle where
  x := 100
  y := 100
  originY := 100
  baseSpeed := 1
  jitterPhase := 0
  jitterAmp := 0
  r := 180
  g := 215
  b := 255

/-- Witness for C10 at a concrete input. -/
theorem update_unknown_type_noop_witness :
    Particle.update env0 ⟨0, 0, 0, 0, 0⟩ 5 AirType.other ⟨228, 175, 80, 30⟩
      600 350 pInt = pInt :=
  update_unknown_type_noop env0 ⟨0, 0, 0, 0, 0⟩ 5 ⟨228, 175, 80, 30⟩ 600 350 pInt
    (by norm_num [pInt]) (by norm_num [pInt]) (by norm_num [pInt])

theorem particle_bound_y (rnd : PRands) (ch : ℚ) (q : Particle)
    (hch : 70 ≤ ch) (hlo1 : 0 ≤ rnd.loY) (hlo2 : rnd.loY < 1)
    (hhi1 : 0 ≤ rnd.hiY) (hhi2 : rnd.hiY < 1) :
    30 ≤ (Particle.bound rnd ch q).y ∧ (Particle.bound rnd ch q).y ≤ ch - 30 := by
  simp only [Particle.bound]
  by_cases h1 : q.y < 30
  · rw [if_pos h1]
    by_cases h2 : ({ q with y := 30 + rnd.loY * 10 } : Particle).y > ch - 30
    · rw [if_pos h2]
      exact ⟨by show (30:ℚ) ≤ ch - 30 - rnd.hiY * 10; linarith,
             by show ch - 30 - rnd.hiY * 10 ≤ ch - 30; linarith⟩
    · rw [if_neg h2]
      have h2' : (30 : ℚ) + rnd.loY * 10 ≤ ch - 30 := not_lt.mp h2
      exact ⟨by show (30:ℚ) ≤ 30 + rnd.loY * 10; linarith, h2'⟩
  · rw [if_neg h1]
    have h1' : 30 ≤ q.y := not_lt.mp h1
    by_cases h2 : q.y > ch - 30
    · rw [if_pos h2]
      exact ⟨by show (30:ℚ) ≤ ch - 30 - rnd.hiY * 10; linarith,
             by show ch - 30 - rnd.hiY * 10 ≤ ch - 30; linarith⟩
    · rw [if_neg h2]
      exact ⟨h1', not_lt.mp h2⟩

theorem stream_core_baseY (env : Env) (rnd : SRands) (windSpeed : ℚ)
    (ty : AirType) (pl : PaperAirplane) (w h : ℚ) (sl : Streamline) :
    (Streamline.core env rnd windSpeed ty pl w h sl).baseY = sl.baseY := rfl

theorem wallClamp (h y0 dy : ℚ) (hh : 30 ≤ h) :
    15 ≤ (if (if y0 + dy < 15 then (15:ℚ) else y0 + dy) > h - 15 then h - 15
          else if y0 + dy < 15 then 15 else y0 + dy) ∧
    (if (if y0 + dy < 15 then (15:ℚ) else y0 + dy) > h - 15 then h - 15
     else if y0 + dy < 15 then 15 else y0 + dy) ≤ h - 15 := by
  by_cases h1 : y0 + dy < 15
  · simp only [if_pos h1]
    by_cases h2 : (15:ℚ) > h - 15
    · rw [if_pos h2]
      exact ⟨by linarith, by linarith⟩
    · rw [if_neg h2]
      exact ⟨le_refl 15, by linarith⟩
  · simp only [if_neg h1]
    by_cases h2 : y0 + dy > h - 15
    · rw [if_pos h2]
      exact ⟨by linarith, by linarith⟩
    · rw [if_neg h2]
      exact ⟨by linarith [not_lt.mp h1], not_lt.mp h2⟩

theorem stream_core_y (env : Env) (rnd : SRands) (windSpeed : ℚ)
    (ty : AirType) (pl : PaperAirplane) (w h : ℚ) (sl : Streamline)
    (hh : 30 ≤ h) :
    15 ≤ (Streamline.core env rnd windSpeed ty pl w h sl).y ∧
    (Streamline.core env rnd windSpeed ty pl w h sl).y ≤ h - 15 := by
  exact wallClamp h sl.y
    (Streamline.deflect env rnd windSpeed ty sl.baseY
      (sl.speed * (windSpeed / 3)) (pl.width * pl.scale * 0.5)
      (pl.height * pl.scale * 0.5) (sl.x - pl.x) (sl.y - pl.y)
      (env.sqrt ((sl.x - pl.x) * (sl.x - pl.x) + (sl.y - pl.y) * (sl.y - pl.y)))
      sl.r sl.g sl.b).2.1 hh

theorem stream_update_y (env : Env) (rnd : SRands) (windSpeed : ℚ)
    (ty : AirType) (pl : PaperAirplane) (w h : ℚ) (sl : Streamline)
    (hh : 30 ≤ h) (hb1 : 15 ≤ sl.baseY) (hb2 : sl.baseY ≤ h - 15) :
    15 ≤ (Streamline.update env rnd windSpeed ty pl w h sl).y ∧
    (Streamline.update env rnd windSpeed ty pl w h sl).y ≤ h - 15 := by
  unfold Streamline.update Streamline.recycle
  split_ifs
  · rw [show ∀ s : Streamline, ∀ a b : ℚ,
      ({ s with x := a + b * 40, y := s.baseY, points := [] } : Streamline).y
        = s.baseY from fun _ _ _ => rfl]
    rw [stream_core_baseY]
    exact ⟨hb1, hb2⟩
  · exact stream_core_y env rnd windSpeed ty pl w h sl hh

/-- C2: after one `update` call, the vertical position is inside the wall
margins for every kind and any starting `y`: `[30, h-30]` for `Particle`
(given draws in `[0,1)` and a tunnel at least 70 high) and `[15, h-15]`
for `Streamline` (whose recycle row `baseY` lies inside the margins by
construction). -/
theorem one_update_wall_invariant :
    (∀ (env : Env) (rnd : PRands) (windSpeed : ℚ) (ty : AirType) (pp : Pos)
        (cw ch : ℚ) (p : Particle), 70 ≤ ch →
        0 ≤ rnd.loY → rnd.loY < 1 → 0 ≤ rnd.hiY → rnd.hiY < 1 →
        30 ≤ (Particle.update env rnd windSpeed ty pp cw ch p).y ∧
        (Particle.update env rnd windSpeed ty pp cw ch p).y ≤ ch - 30) ∧
    (∀ (env : Env) (rnd : SRands) (windSpeed : ℚ) (ty : AirType)
        (pl : PaperAirplane) (w h : ℚ) (sl : Streamline), 30 ≤ h →
        15 ≤ sl.baseY → sl.baseY ≤ h - 15 →
        15 ≤ (Streamline.update env rnd windSpeed ty pl w h sl).y ∧
        (Streamline.update env rnd windSpeed ty pl w h sl).y ≤ h - 15) := by
  constructor
  · intro env rnd windSpeed ty pp cw ch p hch hlo1 hlo2 hhi1 hhi2
    exact particle_bound_y rnd ch _ hch hlo1 hlo2 hhi1 hhi2
  · intro env rnd windSpeed ty pl w h sl hh hb1 hb2
    exact stream_update_y env rnd windSpeed ty pl w h sl hh hb1 hb2

/-- A concrete streamline inside the tunnel. -/
def slInt : Streamline where
  baseY := 100
  x := 200
  y := 100
  opacity := 1/2
  thickness := 1
  speed := 1/2
  r := 120
  g := 180
  b := 255
  maxPoints := 40
  points := []

/-- Witness for C2 at concrete inputs (one particle, one streamline). -/
theorem one_update_wall_invariant_witness :
    (30 ≤ (Particle.update env0 ⟨0, 0, 0, 0, 0⟩ 5 AirType.dart
        ⟨228, 175, 80, 30⟩ 600 350 pInt).y ∧
      (Particle.update env0 ⟨0, 0, 0, 0, 0⟩ 5 AirType.dart
        ⟨228, 175, 80, 30⟩ 600 350 pInt).y ≤ 350 - 30) ∧
    (15 ≤ (Streamline.update env0 ⟨0, 0⟩ 5 AirType.dart
        (PaperAirplane.mk' AirType.dart 228 175) 500 340 slInt).y ∧
      (Streamline.update env0 ⟨0, 0⟩ 5 AirType.dart
        (PaperAirplane.mk' AirType.dart 228 175) 500 340 slInt).y ≤ 340 - 15) :=
  ⟨one_update_wall_invariant.1 env0 ⟨0, 0, 0, 0, 0⟩ 5 AirType.dart
      ⟨228, 175, 80, 30⟩ 600 350 pInt (by norm_num) (by norm_num) (by norm_num)
      (by norm_num) (by norm_num),
   one_update_wall_invariant.2 env0 ⟨0, 0⟩ 5 AirType.dart
      (PaperAirplane.mk' AirType.dart 228 175) 500 340 slInt (by norm_num)
      (by norm_num [slInt]) (by norm_num [slInt])⟩

theorem particle_wrap_reset (rnd : PRands) (cw ch : ℚ) (q : Particle)
    (h : q.x > cw + 10) :
    Particle.wrap rnd cw ch q = Particle.reset rnd ch q := by
  simp only [Particle.wrap, if_pos h]

theorem particle_bound_id_of (rnd : PRands) (ch : ℚ) (q : Particle)
    (h1 : ¬ q.y < 30) (h2 : ¬ q.y > ch - 30) :
    Particle.bound rnd ch q = q := by
  simp only [Particle.bound, if_neg h1, if_neg h2]

/-- C4 amended: a `Particle` crossing the right exit (`x > width + 10`) is
recycled in the same `update` call to the left spawn boundary at a fresh
random height (it keeps no trail); a `Streamline` crossing the left exit
(`x < -20`) is recycled to the right spawn boundary with its trail cleared
to length 0, but its lateral position returns to its own fixed `baseY`,
not to a fresh random offset. -/
theorem exit_recycle_behaviour :
    (∀ (env : Env) (rnd : PRands) (windSpeed : ℚ) (ty : AirType) (pp : Pos)
        (cw ch : ℚ) (p : Particle), 70 ≤ ch →
        0 ≤ rnd.resetY → rnd.resetY < 1 →
        (Particle.move env rnd windSpeed ty pp p).x > cw + 10 →
        (Particle.update env rnd windSpeed ty pp cw ch p).x = -(rnd.resetX * 40) ∧
        (Particle.update env rnd windSpeed ty pp cw ch p).y
          = 35 + rnd.resetY * (ch - 70)) ∧
    (∀ (env : Env) (rnd : SRands) (windSpeed : ℚ) (ty : AirType)
        (pl : PaperAirplane) (w h : ℚ) (sl : Streamline),
        (Streamline.core env rnd windSpeed ty pl w h sl).x < -20 →
        (Streamline.update env rnd windSpeed ty pl w h sl).x
          = w + rnd.recycle * 40 ∧
        (Streamline.update env rnd windSpeed ty pl w h sl).y = sl.baseY ∧
        (Streamline.update env rnd windSpeed ty pl w h sl).points = []) := by
  constructor
  · intro env rnd windSpeed ty pp cw ch p hch hr1 hr2 hx
    unfold Particle.update
    rw [particle_wrap_reset _ _ _ _ hx]
    have hy : (Particle.reset rnd ch (Particle.move env rnd windSpeed ty pp p)).y
        = 35 + rnd.resetY * (ch - 70) := rfl
    have hxx : (Particle.reset rnd ch (Particle.move env rnd windSpeed ty pp p)).x
        = -(rnd.resetX * 40) := rfl
    have hb := particle_bound_id_of rnd ch
      (Particle.reset rnd ch (Particle.move env rnd windSpeed ty pp p))
      (by rw [hy]; push_neg; nlinarith [mul_nonneg hr1 (by linarith : (0:ℚ) ≤ ch - 70)])
      (by rw [hy]; push_neg; nlinarith [mul_nonneg (by linarith : (0:ℚ) ≤ 1 - rnd.resetY)
            (by linarith : (0:ℚ) ≤ ch - 70)])
    rw [hb]
    exact ⟨hxx, hy⟩
  · intro env rnd windSpeed ty pl w h sl hx
    unfold Streamline.update Streamline.recycle
    rw [if_pos hx]
    exact ⟨rfl, stream_core_baseY env rnd windSpeed ty pl w h sl, rfl⟩

/-- A plane far away from the streamline (no interaction). -/
def farPlane : PaperAirplane where
  type := AirType.dart
  homeX := 100000
  homeY := 0
  x := 100000
  y := 0
  angle := 0
  wobble := 0
  scale := 1
  launched := false
  launchProgress := 0
  launchPhase := Phase.fly
  bounceProgress := 0
  width := 80
  height := 30
  tunnelWidth := 0
  launchStartX := 0
  launchStartY := 0

/-- A streamline about to cross the left exit boundary. -/
def slExit : Streamline where
  baseY := 100
  x := -25
  y := 100
  opacity := 1/2
  thickness := 1
  speed := 3
  r := 120
  g := 180
  b := 255
  maxPoints := 40
  points := []

theorem slExit_update_y (r : SRands) :
    (Streamline.update env0 r 5 AirType.dart farPlane 500 340 slExit).y = 100 := by
  norm_num [Streamline.update, Streamline.core, Streamline.recycle,
    Streamline.deflect, Streamline.dartStreamDy, slExit, farPlane, env0, abs_lt]

/-- C4 counterexample: when this concrete streamline crosses the exit
boundary, the same `update` call does clear the trail and reposition `x`
at the spawn boundary, but the recycled `y` equals the streamline's fixed
`baseY = 100` under every random supply — it is not a fresh random lateral
offset (no two random supplies can produce different recycled `y`). -/
theorem stream_recycle_not_fresh_cex :
    (Streamline.update env0 ⟨0, 1/2⟩ 5 AirType.dart farPlane 500 340 slExit).points = [] ∧
    (Streamline.update env0 ⟨0, 1/2⟩ 5 AirType.dart farPlane 500 340 slExit).x
      = 500 + 1/2 * 40 ∧
    ¬ ∃ r₁ r₂ : SRands,
        (Streamline.update env0 r₁ 5 AirType.dart farPlane 500 340 slExit).y
          ≠ (Streamline.update env0 r₂ 5 AirType.dart farPlane 500 340 slExit).y := by
  refine ⟨?_, ?_, ?_⟩
  · norm_num [Streamline.update, Streamline.core, Streamline.recycle,
      Streamline.deflect, Streamline.dartStreamDy, slExit, farPlane, env0, abs_lt]
  · norm_num [Streamline.update, Streamline.core, Streamline.recycle,
      Streamline.deflect, Streamline.dartStreamDy, slExit, farPlane, env0, abs_lt]
  · rintro ⟨r₁, r₂, hne⟩
    exact hne (by rw [slExit_update_y, slExit_update_y])

/-- A particle already past the right exit after one dart advance. -/
def pFar : Particle where
  x := 700
  y := 100
  originY := 100
  baseSpeed := 1
  jitterPhase := 0
  jitterAmp := 0
  r := 180
  g := 215
  b := 255

/-- Witness for the amended C4 at concrete inputs. -/
theorem exit_recycle_behaviour_witness :
    ((Particle.update env0 ⟨0, 1/4, 1/2, 0, 0⟩ 5 AirType.dart ⟨228, 175, 80, 30⟩
        600 350 pFar).x = -(1/4 * 40) ∧
      (Particle.update env0 ⟨0, 1/4, 1/2, 0, 0⟩ 5 AirType.dart ⟨228, 175, 80, 30⟩
        600 350 pFar).y = 35 + 1/2 * (350 - 70)) ∧
    ((Streamline.update env0 ⟨0, 1/2⟩ 5 AirType.dart farPlane 500 340 slExit).x
        = 500 + 1/2 * 40 ∧
      (Streamline.update env0 ⟨0, 1/2⟩ 5 AirType.dart farPlane 500 340 slExit).y
        = slExit.baseY ∧
      (Streamline.update env0 ⟨0, 1/2⟩ 5 AirType.dart farPlane 500 340 slExit).points
        = []) :=
  ⟨exit_recycle_behaviour.1 env0 ⟨0, 1/4, 1/2, 0, 0⟩ 5 AirType.dart ⟨228, 175, 80, 30⟩
      600 350 pFar (by norm_num) (by norm_num) (by norm_num)
      (by norm_num [Particle.move, pFar, env0]),
   exit_recycle_behaviour.2 env0 ⟨0, 1/2⟩ 5 AirType.dart farPlane 500 340 slExit
      (by norm_num [Streamline.core, Streamline.deflect, Streamline.dartStreamDy,
        slExit, farPlane, env0, abs_lt])⟩

/-- The claim's edge-continuity property for a deflection push, seen as a
function of the distance `d` to the zone centre: the push tends to zero
at the zone radius `R` (the push is identically zero outside the zone, so
this is exactly the absence of a discontinuous jump at the edge). -/
def edgeContinuousAt (push : ℚ → ℚ) (R : ℚ) : Prop :=
  ∀ ε : ℚ, 0 < ε → ∃ δ : ℚ, 0 < δ ∧ ∀ d : ℚ, |d - R| < δ → |push d| < ε

theorem dartStreamDy_of_not (spd R d relY : ℚ) (h : ¬ (d < R ∧ d > 0)) :
    Streamline.dartStreamDy spd R d relY = 0 := by
  unfold Streamline.dartStreamDy
  rw [if_neg h]

theorem dartStreamDy_inside_abs (spd R d relY : ℚ) (hR : 0 < R)
    (h1 : 0 < d) (h2 : d < R) :
    |Streamline.dartStreamDy spd R d relY| = (1 - d / R) * 4 * |spd| := by
  unfold Streamline.dartStreamDy
  rw [if_pos ⟨h2, h1⟩]
  have hnn : 0 ≤ (1 - d / R) * 4 := by
    have hd1 : d / R < 1 := (div_lt_one hR).mpr h2
    linarith
  by_cases hy : relY > 0
  · rw [if_pos hy, one_mul, abs_mul, abs_of_nonneg hnn]
  · rw [if_neg hy,
      show (-1 : ℚ) * ((1 - d / R) * 4) * spd = -((1 - d / R) * 4 * spd) by ring,
      abs_neg, abs_mul, abs_of_nonneg hnn]

/-- C8 amended: for the `Streamline` dart deflection zone the claim holds:
the push is exactly zero at the zone radius, its magnitude falls off
with the distance (maximal towards the centre, monotonically decreasing),
and there is no jump at the edge (the push tends to zero there). -/
theorem dart_stream_push_edge :
    (∀ spd R relY : ℚ, Streamline.dartStreamDy spd R R relY = 0) ∧
    (∀ spd R relY : ℚ, 0 < R →
      edgeContinuousAt (fun d => Streamline.dartStreamDy spd R d relY) R) ∧
    (∀ spd R relY d₁ d₂ : ℚ, 0 < R → 0 < d₁ → d₁ ≤ d₂ →
      |Streamline.dartStreamDy spd R d₂ relY|
        ≤ |Streamline.dartStreamDy spd R d₁ relY|) := by
  refine ⟨?_, ?_, ?_⟩
  · intro spd R relY
    exact dartStreamDy_of_not spd R R relY (by simp)
  · intro spd R relY hR ε hε
    refine ⟨ε * R / (4 * (|spd| + 1)), by positivity, ?_⟩
    intro d hd
    show |Streamline.dartStreamDy spd R d relY| < ε
    by_cases hin : d < R ∧ d > 0
    · rw [dartStreamDy_inside_abs spd R d relY hR hin.2 hin.1]
      have hRd : (0:ℚ) < R - d := by linarith [hin.1]
      have habs : R - d < ε * R / (4 * (|spd| + 1)) := by
        have he : |d - R| = R - d := by
          rw [abs_of_nonpos (by linarith : d - R ≤ 0)]
          ring
        rw [he] at hd
        exact hd
      have hmul : (R - d) * (4 * (|spd| + 1))
          < ε * R / (4 * (|spd| + 1)) * (4 * (|spd| + 1)) :=
        mul_lt_mul_of_pos_right habs (by positivity)
      have hsimp : ε * R / (4 * (|spd| + 1)) * (4 * (|spd| + 1)) = ε * R := by
        field_simp
      rw [hsimp] at hmul
      have hexp : (R - d) * (4 * (|spd| + 1))
          = (R - d) * 4 * |spd| + 4 * (R - d) := by ring
      have h1d : 1 - d / R = (R - d) / R := by field_simp
      rw [h1d, div_mul_eq_mul_div, div_mul_eq_mul_div, div_lt_iff hR]
      calc (R - d) * 4 * |spd|
          = (R - d) * (4 * (|spd| + 1)) - 4 * (R - d) := by rw [hexp]; ring
        _ < ε * R - 4 * (R - d) := by linarith
        _ < ε * R := by linarith
    · rw [dartStreamDy_of_not spd R d relY hin]
      simpa using hε
  · intro spd R relY d₁ d₂ hR hd1 hle
    by_cases hin2 : d₂ < R ∧ d₂ > 0
    · have hin1 : d₁ < R ∧ d₁ > 0 := ⟨lt_of_le_of_lt hle hin2.1, hd1⟩
      rw [dartStreamDy_inside_abs spd R d₂ relY hR hin2.2 hin2.1,
        dartStreamDy_inside_abs spd R d₁ relY hR hin1.2 hin1.1]
      have hdiv : d₁ / R ≤ d₂ / R := by gcongr
      nlinarith [abs_nonneg spd]
    · rw [dartStreamDy_of_not spd R d₂ relY hin2]
      simpa using abs_nonneg (Streamline.dartStreamDy spd R d₁ relY)

/-- Witness for the amended C8 at concrete inputs. -/
theorem dart_stream_push_edge_witness :
    edgeContinuousAt (fun d => Streamline.dartStreamDy 2 10 d 3) 10 ∧
    |Streamline.dartStreamDy 2 10 7 3| ≤ |Streamline.dartStreamDy 2 10 5 3| :=
  ⟨dart_stream_push_edge.2.1 2 10 3 (by norm_num),
   dart_stream_push_edge.2.2 2 10 3 5 7 (by norm_num) (by norm_num) (by norm_num)⟩

theorem particle_wrap_id (rnd : PRands) (cw ch : ℚ) (q : Particle)
    (h : ¬ q.x > cw + 10) : Particle.wrap rnd cw ch q = q := by
  simp only [Particle.wrap, if_neg h]

/-- The glider plane bounds handed to particles (glider `pos` at scale 1). -/
def ppG : Pos := ⟨300, 100, 60, 100⟩

/-- A particle below the glider wing at horizontal offset `d` from the
plane centre. -/
def pG (d : ℚ) : Particle where
  x := 300 + d
  y := 110
  originY := 110
  baseSpeed := 1
  jitterPhase := 0
  jitterAmp := 0
  r := 0
  g := 0
  b := 0

theorem glider_zone_push_eval (d : ℚ) (h1 : 0 < d) (h2 : d < 42) :
    (Particle.update env0 ⟨0, 0, 0, 0, 0⟩ 5 AirType.glider ppG 600 350 (pG d)).y
      = 2191/20 := by
  have hc : (|(pG d).x - ppG.x| < ppG.width * 0.7 ∧
      |(pG d).y - ppG.y| < ppG.height * 1.2) ∧ (pG d).y - ppG.y > 0 := by
    refine ⟨⟨?_, ?_⟩, ?_⟩
    · show |300 + d - 300| < (60 : ℚ) * 0.7
      rw [show (300 : ℚ) + d - 300 = d by ring, abs_of_pos h1,
        show (60 : ℚ) * 0.7 = 42 by norm_num]
      exact h2
    · show |(110 : ℚ) - 100| < 100 * 1.2
      norm_num
    · show (110 : ℚ) - 100 > 0
      norm_num
  have hmove : Particle.move env0 ⟨0, 0, 0, 0, 0⟩ 5 AirType.glider ppG (pG d)
      = ⟨300 + d + 7/10, 2191/20, 110, 1, 0, 0, 100, 210, 140⟩ := by
    simp only [Particle.move]
    rw [if_pos hc]
    simp [pG, ppG, env0, Particle.mk.injEq]
    norm_num
  unfold Particle.update
  rw [hmove]
  rw [particle_wrap_id _ _ _ _
    (by show ¬ (300 + d + 7/10 > (600 : ℚ) + 10); push_neg; linarith)]
  rw [particle_bound_id_of _ _ _
    (by show ¬ ((2191/20 : ℚ) < 30); norm_num)
    (by show ¬ ((2191/20 : ℚ) > 350 - 30); norm_num)]

/-- C8 counterexample: for the glider kind of `Particle.update` the claim
fails.  The lateral push inside the wing zone has the constant magnitude
`speed * 0.45` (here `9/20`) independent of the distance to the zone
boundary, so the push does not fall to zero towards the zone edge at
offset 42: the edge-continuity property is violated at this concrete
configuration (plane at `(300,100)`, particle row `y = 110`, wind 5). -/
theorem particle_zone_jump_cex :
    ¬ edgeContinuousAt
        (fun d => (Particle.update env0 ⟨0, 0, 0, 0, 0⟩ 5 AirType.glider ppG
          600 350 (pG d)).y - 110) 42 := by
  intro h
  obtain ⟨δ, hδ, hall⟩ := h (9/20) (by norm_num)
  have hmin1 : 0 < min δ 1 := lt_min hδ one_pos
  have hmin2 : min δ 1 ≤ 1 := min_le_right _ _
  have hd1 : 0 < 42 - min δ 1 / 2 := by linarith
  have hd2 : 42 - min δ 1 / 2 < 42 := by linarith
  have hclose : |42 - min δ 1 / 2 - 42| < δ := by
    rw [show (42 : ℚ) - min δ 1 / 2 - 42 = -(min δ 1 / 2) by ring, abs_neg,
      abs_of_pos (by linarith)]
    have := min_le_left δ 1
    linarith
  have hbad : |(Particle.update env0 ⟨0, 0, 0, 0, 0⟩ 5 AirType.glider ppG
      600 350 (pG (42 - min δ 1 / 2))).y - 110| < 9/20 :=
    hall (42 - min δ 1 / 2) hclose
  rw [glider_zone_push_eval (42 - min δ 1 / 2) hd1 hd2,
    show (2191/20 : ℚ) - 110 = -(9/20) by norm_num, abs_neg,
    abs_of_nonneg (by norm_num : (0:ℚ) ≤ 9/20)] at hbad
  exact absurd hbad (by norm_num)
